import Mathlib

/-!
# Verification of the `pywrangler` dependency-sync tool

Shallow embedding of the `pywrangler` package-synchronization logic
(`src/pywrangler/sync.py`, `src/pywrangler/utils.py`) together with the
refined install orchestrator exercised by `tests/test_version_sync.py`.

External effects (subprocess exit codes, file timestamps, file existence)
are passed in explicitly as oracle arguments; each embedded function
returns a record of the observable effects it performs (commands issued,
log messages emitted, marker files touched, the process exit it requests).
-/

namespace Pywrangler

/-! ## String helpers (Python `str.split`, `in`, `startswith`) -/

/-- Python `s.split(sep)` for a one-character separator, on the character
list: split at every occurrence, keeping empty segments
(`"".split(sep) == [""]`). -/
def splitOnCharAux (sep : Char) : List Char → List Char → List String
  | [], acc => [String.mk acc.reverse]
  | c :: cs, acc =>
    if c = sep then String.mk acc.reverse :: splitOnCharAux sep cs []
    else splitOnCharAux sep cs (c :: acc)

/-- Python `s.split(sep)` for a one-character separator. -/
def splitOnChar (sep : Char) (s : String) : List String :=
  splitOnCharAux sep s.toList []

/-- Python `s.split("\n")`. -/
def splitLines (s : String) : List String :=
  splitOnChar '\n' s

/-- `True` when `pat` occurs as a contiguous run inside the character list. -/
def charsContain (pat : List Char) : List Char → Bool
  | [] => pat.isEmpty
  | c :: cs => pat.isPrefixOf (c :: cs) || charsContain pat cs

/-- Python `pat in s` (substring containment). -/
def strContainsSub (s pat : String) : Bool :=
  charsContain pat.toList s.toList

/-- Python `s.startswith(pat)`. -/
def strStartsWith (s pat : String) : Bool :=
  pat.toList.isPrefixOf s.toList

/-- Lexicographic code-point comparison of character lists (Python `<`
on strings). -/
def charListLt : List Char → List Char → Bool
  | [], [] => false
  | [], _ :: _ => true
  | _ :: _, [] => false
  | a :: as, b :: bs =>
    if a < b then true
    else if b < a then false
    else charListLt as bs

/-- Python `a < b` on strings. -/
def strLt (a b : String) : Bool :=
  charListLt a.toList b.toList

/-- Python `a <= b` on strings. -/
def strLe (a b : String) : Bool :=
  !(strLt b a)

/-! ## Resolved-version extraction (`_parse_pip_freeze`) -/

/-- One iteration of the `_parse_pip_freeze` loop: Python
`if line and not line.startswith("#") and "==" in line: packages.append(line)`. -/
def freezeStep (acc : List String) (line : String) : List String :=
  if !(line == "") && !(strStartsWith line "#") && strContainsSub line "==" then
    acc ++ [line]
  else acc

/-- Modelled from the spec: `_parse_pip_freeze` is referenced by
`tests/test_version_sync.py` but absent from `src/pywrangler/sync.py`
(the snapshot under `src/` predates it).  Per the spec (§4.3) it parses
the freeze-style listing output line by line, keeping only lines that
contain the `==` version separator after dropping blank lines and
`#`-prefixed comment lines, preserving order.  The loop-with-accumulator
shape mirrors the imperative traversal. -/
def _parse_pip_freeze (output : String) : List String :=
  (splitLines output).foldl freezeStep []

/-- The claim's own description of a kept line: contains `==`, not blank,
not a `#`-prefixed comment. -/
def specKeepLine (line : String) : Bool :=
  !(line == "") && !(strStartsWith line "#") && strContainsSub line "=="

/-- The extraction as the claim states it: a plain order-preserving filter
of the input's lines. -/
def specExtractResolved (output : String) : List String :=
  (splitLines output).filter specKeepLine

theorem freezeStep_eq (acc : List String) (l : String) :
    freezeStep acc l = if specKeepLine l then acc ++ [l] else acc := rfl

theorem foldl_freezeStep (lines : List String) (acc : List String) :
    lines.foldl freezeStep acc = acc ++ lines.filter specKeepLine := by
  induction lines generalizing acc with
  | nil => simp
  | cons l ls ih =>
    rw [List.foldl_cons, freezeStep_eq, ih, List.filter_cons]
    cases hk : specKeepLine l <;> simp [hk]

theorem parse_pip_freeze_eq_filter (output : String) :
    _parse_pip_freeze output = specExtractResolved output := by
  unfold _parse_pip_freeze specExtractResolved
  simpa using foldl_freezeStep (splitLines output) []

example :
    _parse_pip_freeze "shapely==2.0.7\nnumpy==1.26.4\nclick==8.1.7\n" =
      ["shapely==2.0.7", "numpy==1.26.4", "click==8.1.7"] := by decide

example :
    _parse_pip_freeze "# Python 3.12.7\nshapely==2.0.7\n\n\nnumpy==1.26.4\n# Comment\n" =
      ["shapely==2.0.7", "numpy==1.26.4"] := by decide

example :
    _parse_pip_freeze "shapely==2.0.7\nsome-package\nnumpy==1.26.4\n" =
      ["shapely==2.0.7", "numpy==1.26.4"] := by decide

/-! ## Resolved-version extraction entry point (`_get_vendor_package_versions`) -/

/-- Modelled from the spec: `_get_vendor_package_versions` is referenced by
`tests/test_version_sync.py` but absent from `src/pywrangler/sync.py`.
Per the spec (§4.3/§7) it runs a freeze-style listing command against the
cross-compiled environment and parses its output; it never fails — it
returns `[]` when the target directory cannot be inspected or when the
listing command exits non-zero, regardless of the command's stdout.
The inspectability of the directory and the command's outcome are passed
in as oracles. -/
def _get_vendor_package_versions (dirInspectable : Bool) (exitCode : Nat)
    (stdout : String) : List String :=
  if !dirInspectable then []
  else if exitCode ≠ 0 then []
  else _parse_pip_freeze stdout

/-! ## The install orchestrator (`install_requirements`, refined variant)

The src snapshot's `install_requirements` (sync.py:300-302) is the
superseded two-line variant; the refined orchestrator the repository's own
tests exercise (installer helpers that return a diagnostic string or
`None`, conditional extraction, error precedence) is absent from src.
It is modelled below from the spec (§4.5) and pinned by the call-order and
log assertions of `tests/test_version_sync.py`. -/

/-- An installer-level action performed by the orchestrator, in order. -/
inductive Event where
  | vendorInstall (reqs : List String)
  | getVendorVersions
  | venvInstall (reqs : List String)
deriving DecidableEq, Repr

/-- A message surfaced to the user by the orchestrator (structured: a raw
installer diagnostic, an actionable hint, or one of the two fixed summary
lines). -/
inductive LogEntry where
  | diag (text : String)
  | hint (text : String)
  | venvFailSummary
  | vendorFailSummary
deriving DecidableEq, Repr

/-- The two fixed summary texts asserted by `tests/test_version_sync.py`. -/
def venvFailSummaryText : String :=
  "Failed to install the requirements defined in your pyproject.toml file. See above for details."

def vendorFailSummaryText : String :=
  "Installation of packages into the Python Worker failed. Possibly because these packages are not currently supported. See above for details."

/-- The table of known cross-compiled failure signatures and their hints
(from `tests/test_version_sync.py::test_known_pyodide_errors`). -/
def COMMON_ERRORS : List (String × String) :=
  [("invalid peer certificate",
    "Are your systems certificates correctly installed? Do you have an Enterprise VPN enabled?"),
   ("failed to fetch",
    "Is your network connection working?"),
   ("no solution found when resolving dependencies",
    "the packages you requested are not supported by Python Workers. See above for details.")]

/-- Hints whose signature occurs in the cross-compiled diagnostic. -/
def matchedHints (diagText : String) : List LogEntry :=
  (COMMON_ERRORS.filter (fun p => strContainsSub diagText p.1)).map
    (fun p => LogEntry.hint p.2)

/-- What one orchestrator run did: the installer actions in order, the
messages surfaced, and the process exit it requested (`none` = returned
normally). -/
structure SyncRun where
  calls : List Event
  logs : List LogEntry
  exitCode : Option Nat
deriving DecidableEq, Repr

/-- Modelled from the spec: the refined `install_requirements` (§4.5, §7),
absent from the src snapshot; its behavior is pinned by
`tests/test_version_sync.py`.  The outcomes of the two installers and the
extracted resolved list are passed in as oracles (`none` = the installer
succeeded, `some d` = it failed with diagnostic `d`); the native
installer runs exactly once, so a single outcome oracle suffices.

Pipeline: install into the cross-compiled vendor environment; if that
succeeded, extract the resolved pinned versions and, when the list is
non-empty, replace the requirement list with it; install into the native
environment; surface the native failure first (hiding the cross-compiled
diagnostic entirely), else the cross-compiled failure with any matched
hints; abort with exit code 1 on either failure. -/
def install_requirements (requirements : List String)
    (vendorOutcome : Option String) (resolved : List String)
    (venvOutcome : Option String) : SyncRun :=
  let vendorCalls := [Event.vendorInstall requirements]
  let extraction : List Event × List String :=
    match vendorOutcome with
    | none =>
      ([Event.getVendorVersions],
       if resolved.isEmpty then requirements else resolved)
    | some _ => ([], requirements)
  let calls := vendorCalls ++ extraction.1 ++ [Event.venvInstall extraction.2]
  match venvOutcome with
  | some venvErr =>
    { calls := calls,
      logs := [LogEntry.diag venvErr, LogEntry.venvFailSummary],
      exitCode := some 1 }
  | none =>
    match vendorOutcome with
    | some vendorErr =>
      { calls := calls,
        logs := [LogEntry.diag vendorErr] ++ matchedHints vendorErr ++
          [LogEntry.vendorFailSummary],
        exitCode := some 1 }
    | none => { calls := calls, logs := [], exitCode := none }

example :
    install_requirements ["nonexistent-package"]
      (some "Pyodide install failed: no solution found") []
      (some "Native install failed: package not found") =
    { calls := [Event.vendorInstall ["nonexistent-package"],
                Event.venvInstall ["nonexistent-package"]],
      logs := [LogEntry.diag "Native install failed: package not found",
               LogEntry.venvFailSummary],
      exitCode := some 1 } := by decide

example :
    install_requirements ["some-package"] none ["some-package==1.0.0"]
      (some "Native install failed: package not found") =
    { calls := [Event.vendorInstall ["some-package"],
                Event.getVendorVersions,
                Event.venvInstall ["some-package==1.0.0"]],
      logs := [LogEntry.diag "Native install failed: package not found",
               LogEntry.venvFailSummary],
      exitCode := some 1 } := by decide

example :
    install_requirements ["some-package"]
      (some "no solution found when resolving dependencies") [] none =
    { calls := [Event.vendorInstall ["some-package"],
                Event.venvInstall ["some-package"]],
      logs := [LogEntry.diag "no solution found when resolving dependencies",
               LogEntry.hint "the packages you requested are not supported by Python Workers. See above for details.",
               LogEntry.vendorFailSummary],
      exitCode := some 1 } := by decide

/-! ## The cross-compiled installer (`_install_requirements_to_vendor`)

Embedded from `src/pywrangler/sync.py:220-266`.  The filesystem and
subprocess steps it performs are recorded as an ordered trace; the exit
code of the `uv pip install` subprocess is an oracle (with `check=True`,
`run_command` raises `click.exceptions.Exit(returncode)` on non-zero
exit, so every later step is skipped). -/

/-- A side-effecting step of `_install_requirements_to_vendor`, in source
order. -/
inductive VendorStep where
  | mkdirVendor
  | uvPipInstall (reqs : List String)
  | rmtreeVendor
  | copySitePackages
  | touchPyvenvCfg
  | touchVendorToken
deriving DecidableEq, Repr

/-- The observable effects of one `_install_requirements_to_vendor` call. -/
structure VendorRun where
  steps : List VendorStep
  exitCode : Option Nat
deriving DecidableEq, Repr

/-- `src/pywrangler/sync.py:220-266`: empty requirements → log a warning
and return before any installation (no step at all is performed); else
mkdir the vendor directory, run `uv pip install` into the pyodide venv
(aborting with the subprocess's exit code when it fails), replace the
vendor directory with the resulting site-packages, touch `pyvenv.cfg`,
and finally touch the vendor completion token. -/
def _install_requirements_to_vendor (requirements : List String)
    (installExit : Nat) : VendorRun :=
  if requirements.length = 0 then
    { steps := [], exitCode := none }
  else if installExit ≠ 0 then
    { steps := [VendorStep.mkdirVendor, VendorStep.uvPipInstall requirements],
      exitCode := some installExit }
  else
    { steps := [VendorStep.mkdirVendor, VendorStep.uvPipInstall requirements,
                VendorStep.rmtreeVendor, VendorStep.copySitePackages,
                VendorStep.touchPyvenvCfg, VendorStep.touchVendorToken],
      exitCode := none }

/-! ## The native installer (`_install_requirements_to_venv`)

Embedded from `src/pywrangler/sync.py:269-297`.  The source copies the
caller's list (`requirements = requirements.copy()`) before appending
`"pyodide-py"`, so the caller's list object is left untouched; the copy,
with the extra package appended at the end, is what reaches the
underlying installer via the temp requirements file. -/

/-- The observable effects of one `_install_requirements_to_venv` call. -/
structure VenvRun where
  /-- The requirement strings handed to the underlying installer. -/
  installerReqs : List String
  /-- The text written to the temp requirements file (`"\n".join(...)`). -/
  tempFileContents : String
  /-- The content of the caller's requirement-list object after the call. -/
  callerReqsAfter : List String
  /-- Whether the `.venv-workers/.synced` token was touched. -/
  tokenTouched : Bool
  exitCode : Option Nat
deriving DecidableEq, Repr

/-- `src/pywrangler/sync.py:269-297`. -/
def _install_requirements_to_venv (requirements : List String)
    (installExit : Nat) : VenvRun :=
  -- requirements = requirements.copy(); requirements.append("pyodide-py")
  let localReqs := requirements ++ ["pyodide-py"]
  let fileContents := String.intercalate "\n" localReqs
  if installExit ≠ 0 then
    { installerReqs := localReqs, tempFileContents := fileContents,
      callerReqsAfter := requirements, tokenTouched := false,
      exitCode := some installExit }
  else
    { installerReqs := localReqs, tempFileContents := fileContents,
      callerReqsAfter := requirements, tokenTouched := true,
      exitCode := none }

/-! ## The legacy `requirements.txt` pre-flight check

Embedded from `src/pywrangler/sync.py:42-59`.  The file's presence and
its lines (Python `f.read().splitlines()`) are passed in as an oracle. -/

/-- The observable effects of one `check_requirements_txt` call. -/
structure CheckRun where
  warnings : List String
  errors : List String
  exitCode : Option Nat
deriving DecidableEq, Repr

/-- `src/pywrangler/sync.py:42-59`: when `requirements.txt` exists at the
project root, log migration guidance (including a generated
`dependencies = [...]` block) and an error, then raise `Exit(code=1)`;
when it does not exist, do nothing. -/
def check_requirements_txt (requirementsTxt : Option (List String)) : CheckRun :=
  match requirementsTxt with
  | none => { warnings := [], errors := [], exitCode := none }
  | some requirements =>
    let pyprojectText :=
      "dependencies = [\n" ++
        String.intercalate ",\n" (requirements.map (fun x => "  \"" ++ x ++ "\"")) ++
        "\n]"
    { warnings :=
        ["Specifying Python Packages in requirements.txt is no longer supported, please use pyproject.toml instead.\nPut the following in your pyproject.toml to vendor the packages currently in your requirements.txt:",
         pyprojectText],
      errors := ["requirements.txt exists. Delete the file to continue. Exiting."],
      exitCode := some 1 }

/-- Modelled from the spec: the caller that runs the pre-flight check ahead
of the install pipeline (the current sync command; `src/pywrangler/cli.py`
in the snapshot is an older variant that does not yet call
`check_requirements_txt`).  Per the spec (§7), pre-flight errors abort
before any installation is attempted: a raised `Exit` propagates, so the
install step runs only when the check requested no exit.  Returns the
check's effects and whether the install step was reached. -/
def sync_preflight (requirementsTxt : Option (List String)) : CheckRun × Bool :=
  let check := check_requirements_txt requirementsTxt
  match check.exitCode with
  | some _ => (check, false)
  | none => (check, true)

/-! ## The staleness check (`is_sync_needed`)

Embedded from `src/pywrangler/sync.py:305-326`.  File modification times
are modelled as integers (only their ordering is used); a marker file is
`none` when absent, `some mtime` when present. -/

/-- `src/pywrangler/sync.py:305-308`. -/
def _is_out_of_date (token : Option Int) (time : Int) : Bool :=
  match token with
  | none => true
  | some mtime => time > mtime

/-- `src/pywrangler/sync.py:311-326`: `pyproject` is the manifest's mtime
(`none` when the manifest file is missing), `vendorToken` and
`venvWorkersToken` the two completion markers. -/
def is_sync_needed (pyproject : Option Int) (vendorToken : Option Int)
    (venvWorkersToken : Option Int) : Bool :=
  match pyproject with
  | none => true
  | some pyprojectMtime =>
    _is_out_of_date vendorToken pyprojectMtime ||
      _is_out_of_date venvWorkersToken pyprojectMtime

/-! ## The runtime version resolver (`get_python_version`)

Embedded from `src/pywrangler/utils.py:332-380`.  Calendar dates replace
Python `datetime` values (only construction from `%Y-%m-%d` strings and
ordering are used). -/

/-- A calendar date (`datetime.strptime(s, "%Y-%m-%d")` result). -/
structure Date where
  year : Nat
  month : Nat
  day : Nat
deriving DecidableEq, Repr

/-- `a <= b` on dates (lexicographic year, month, day — as on Python
`datetime` values that differ only in the date part). -/
def dateLe (a b : Date) : Bool :=
  if a.year ≠ b.year then decide (a.year < b.year)
  else if a.month ≠ b.month then decide (a.month < b.month)
  else decide (a.day ≤ b.day)

/-- `a < b` on dates. -/
def dateLt (a b : Date) : Bool :=
  dateLe a b && !(decide (a = b))

/-- Number of days of month `m` in year `y` (Gregorian). -/
def daysInMonth (y m : Nat) : Nat :=
  if m = 2 then
    if (y % 4 = 0 ∧ y % 100 ≠ 0) ∨ y % 400 = 0 then 29 else 28
  else if m = 4 ∨ m = 6 ∨ m = 9 ∨ m = 11 then 30
  else 31

/-- Python `int(cs)` for a non-empty all-digit string (leading zeros
allowed), `none` otherwise. -/
def charsToNat? (cs : List Char) : Option Nat :=
  if cs ≠ [] ∧ cs.all Char.isDigit then
    some (cs.foldl (fun n c => n * 10 + (c.toNat - Char.toNat '0')) 0)
  else none

/-- `datetime.strptime(s, "%Y-%m-%d")`: a 4-digit year, a 1-2 digit month
in 1..12, and a 1-2 digit day valid for that month, joined by `-`;
anything else raises `ValueError` (here: `none`). -/
def parseCompatDate (s : String) : Option Date :=
  match splitOnChar '-' s with
  | [ys, ms, ds] =>
    match charsToNat? ys.toList, charsToNat? ms.toList, charsToNat? ds.toList with
    | some y, some m, some d =>
      if ys.toList.length = 4 ∧ 1 ≤ y ∧
         ms.toList.length ≤ 2 ∧ 1 ≤ m ∧ m ≤ 12 ∧
         ds.toList.length ≤ 2 ∧ 1 ≤ d ∧ d ≤ daysInMonth y m then
        some { year := y, month := m, day := d }
      else none
    | _, _, _ => none
  | _ => none

/-- One entry of `pywrangler.metadata.PYTHON_COMPAT_VERSIONS`: a supported
interpreter version, its explicit enable flag, and its optional
implicit-enable compatibility date. -/
structure PyCompatVersion where
  version : String
  compat_flag : String
  compat_date : Option Date
deriving DecidableEq, Repr

/-- Modelled from the spec: the version support table
`PYTHON_COMPAT_VERSIONS` (module `pywrangler.metadata`, absent from the
src snapshot).  The spec (§3) says a small enumerated set of supported
minor versions — e.g. `3.12` and `3.13` per `utils.py:383-398` — each
carrying an explicit enable flag and an optional implicit-enable date.
Flag names and dates are representative values; the resolver theorems
below are proved for every table. -/
def PYTHON_COMPAT_VERSIONS : List PyCompatVersion :=
  [{ version := "3.12", compat_flag := "python_workers_312",
     compat_date := some { year := 2024, month := 4, day := 1 } },
   { version := "3.13", compat_flag := "python_workers_313",
     compat_date := some { year := 2025, month := 9, day := 1 } }]

/-- `sorted(..., key=lambda x: x.version, reverse=True)` insertion step:
place `x` before the first entry whose version key is `<=` its own
(Python's sort is stable, so among equal keys earlier input elements
stay first). -/
def insertDesc (x : PyCompatVersion) : List PyCompatVersion → List PyCompatVersion
  | [] => [x]
  | y :: ys =>
    if strLe y.version x.version then x :: y :: ys else y :: insertDesc x ys

/-- `sorted(PYTHON_COMPAT_VERSIONS, key=lambda x: x.version, reverse=True)`. -/
def sortDesc : List PyCompatVersion → List PyCompatVersion
  | [] => []
  | x :: xs => insertDesc x (sortDesc xs)

/-- One loop iteration's test, `utils.py:370-377`: the version is selected
if its explicit flag is among the compatibility flags, or if it carries an
implicit-enable date and the configured date is on or after it. -/
def versionMatches (d : Date) (flags : List String) (p : PyCompatVersion) : Bool :=
  decide (p.compat_flag ∈ flags) ||
    (match p.compat_date with
     | some dd => dateLe dd d
     | none => false)

/-- The `for py_version in sorted_versions` loop, `utils.py:370-377`:
return the first version that matches by flag or by date. -/
def selectVersion (d : Date) (flags : List String) :
    List PyCompatVersion → Option String
  | [] => none
  | p :: rest =>
    if p.compat_flag ∈ flags then some p.version
    else
      match p.compat_date with
      | some dd => if dateLe dd d then some p.version else selectVersion d flags rest
      | none => selectVersion d flags rest

/-- The wrangler configuration fields `get_python_version` reads
(`config.get("compatibility_flags", [])` defaults a missing flag list to
`[]`, hence a plain list here; a missing `compatibility_date` is `none`). -/
structure WranglerConfig where
  compatibility_date : Option String
  compatibility_flags : List String
deriving DecidableEq, Repr

/-- `src/pywrangler/utils.py:332-380`, generic in the version table
(`PYTHON_COMPAT_VERSIONS` lives in the absent `metadata` module): empty or
missing config → error; missing `compatibility_date` → error; unparseable
date → error; missing `python_workers` base flag → error; otherwise scan
the table newest-first and return the first version enabled by flag or
date, erroring when none matches. -/
def get_python_version (config : Option WranglerConfig)
    (table : List PyCompatVersion) : Except String String :=
  match config with
  | none => Except.error "No wrangler config found"
  | some cfg =>
    match cfg.compatibility_date with
    | none => Except.error "No compatibility_date specified in wrangler config"
    | some dateStr =>
      match parseCompatDate dateStr with
      | none => Except.error ("Invalid compatibility_date format: " ++ dateStr)
      | some compatDate =>
        if "python_workers" ∈ cfg.compatibility_flags then
          match selectVersion compatDate cfg.compatibility_flags (sortDesc table) with
          | some ver => Except.ok ver
          | none =>
            Except.error "Could not determine Python version from wrangler config"
        else
          Except.error "`python_workers` compat flag not specified in wrangler config"

example : parseCompatDate "2025-01-01" =
    some { year := 2025, month := 1, day := 1 } := by decide

example : parseCompatDate "2025-13-01" = none := by decide

example : parseCompatDate "not-a-date" = none := by decide

example : parseCompatDate "2025-02-29" = none := by decide

example :
    get_python_version
      (some { compatibility_date := some "2025-01-01",
              compatibility_flags := ["python_workers", "python_workers_313"] })
      PYTHON_COMPAT_VERSIONS = Except.ok "3.13" := rfl

example :
    get_python_version
      (some { compatibility_date := some "2025-01-01",
              compatibility_flags := ["python_workers"] })
      PYTHON_COMPAT_VERSIONS = Except.ok "3.12" := rfl

/-! ## Helper lemmas about the version-table sort and the selection loop -/

theorem charListLt_asymm :
    ∀ {a b : List Char}, charListLt a b = true → charListLt b a = false := by
  intro a
  induction a with
  | nil =>
    intro b h
    cases b with
    | nil => simp [charListLt] at h
    | cons c cs => simp [charListLt]
  | cons x xs ih =>
    intro b h
    cases b with
    | nil => simp [charListLt] at h
    | cons y ys =>
      by_cases hxy : x < y
      · have hyx : ¬ y < x := lt_asymm hxy
        simp [charListLt, hxy, hyx] at h ⊢
      · by_cases hyx : y < x
        · simp [charListLt, hxy, hyx] at h
        · simp [charListLt, hxy, hyx] at h ⊢
          exact ih h

theorem charListLt_antisymm :
    ∀ {a b : List Char}, charListLt a b = false → charListLt b a = false → a = b := by
  intro a
  induction a with
  | nil =>
    intro b h1 _
    cases b with
    | nil => rfl
    | cons c cs => simp [charListLt] at h1
  | cons x xs ih =>
    intro b h1 h2
    cases b with
    | nil => simp [charListLt] at h2
    | cons y ys =>
      by_cases hxy : x < y
      · simp [charListLt, hxy] at h1
      · by_cases hyx : y < x
        · simp [charListLt, hyx] at h2
        · have hx : x = y := le_antisymm (not_lt.mp hyx) (not_lt.mp hxy)
          subst hx
          simp only [charListLt, lt_irrefl, if_false, if_neg] at h1 h2
          rw [ih h1 h2]

theorem charListLt_trans :
    ∀ {a b c : List Char}, charListLt a b = true → charListLt b c = true →
      charListLt a c = true := by
  intro a
  induction a with
  | nil =>
    intro b c hab hbc
    cases b with
    | nil => simp [charListLt] at hab
    | cons y ys =>
      cases c with
      | nil => simp [charListLt] at hbc
      | cons z zs => simp [charListLt]
  | cons x xs ih =>
    intro b c hab hbc
    cases b with
    | nil => simp [charListLt] at hab
    | cons y ys =>
      cases c with
      | nil => simp [charListLt] at hbc
      | cons z zs =>
        by_cases hxy : x < y
        · by_cases hyz : y < z
          · have hxz : x < z := lt_trans hxy hyz
            simp [charListLt, hxz]
          · by_cases hzy : z < y
            · simp [charListLt, hyz, hzy] at hbc
            · have hyeq : y = z := le_antisymm (not_lt.mp hzy) (not_lt.mp hyz)
              subst hyeq
              simp [charListLt, hxy]
        · by_cases hyx : y < x
          · simp [charListLt, hxy, hyx] at hab
          · have hxeq : x = y := le_antisymm (not_lt.mp hyx) (not_lt.mp hxy)
            subst hxeq
            simp only [charListLt, lt_irrefl, if_neg, if_false] at hab
            by_cases hyz : x < z
            · simp [charListLt, hyz]
            · by_cases hzy : z < x
              · simp [charListLt, hyz, hzy] at hbc
              · have hzeq : x = z := le_antisymm (not_lt.mp hzy) (not_lt.mp hyz)
                subst hzeq
                simp only [charListLt, lt_irrefl, if_neg, if_false] at hbc ⊢
                exact ih hab hbc

theorem strLe_trans {a b c : String} (h1 : strLe a b = true)
    (h2 : strLe b c = true) : strLe a c = true := by
  unfold strLe strLt at h1 h2 ⊢
  rw [Bool.not_eq_true'] at h1 h2 ⊢
  cases hca : charListLt c.toList a.toList with
  | false => rfl
  | true =>
    exfalso
    cases hbc : charListLt b.toList c.toList with
    | true =>
      have := charListLt_trans hbc hca
      rw [this] at h1
      cases h1
    | false =>
      have hbeq := charListLt_antisymm h2 hbc
      rw [hbeq] at hca
      rw [hca] at h1
      cases h1

theorem strLe_of_not_strLe {a b : String} (h : ¬ strLe a b = true) :
    strLe b a = true := by
  unfold strLe at h ⊢
  cases hba : strLt b a with
  | false => simp [hba] at h
  | true =>
    unfold strLt at hba ⊢
    rw [charListLt_asymm hba]
    rfl

theorem version_eq_of_strLt_false {a b : String}
    (h1 : strLt a b = false) (h2 : strLt b a = false) : a = b := by
  unfold strLt at h1 h2
  have h3 := charListLt_antisymm h1 h2
  cases a with
  | mk da =>
    cases b with
    | mk db =>
      have h4 : da = db := h3
      exact congrArg String.mk h4

theorem mem_insertDesc {a x : PyCompatVersion} :
    ∀ {l : List PyCompatVersion}, a ∈ insertDesc x l ↔ a = x ∨ a ∈ l := by
  intro l
  induction l with
  | nil => simp [insertDesc]
  | cons y ys ih =>
    unfold insertDesc
    by_cases h : strLe y.version x.version = true
    · rw [if_pos h]
      simp
    · rw [if_neg h]
      simp only [List.mem_cons, ih]
      tauto

theorem mem_sortDesc {a : PyCompatVersion} :
    ∀ {l : List PyCompatVersion}, a ∈ sortDesc l ↔ a ∈ l := by
  intro l
  induction l with
  | nil => simp [sortDesc]
  | cons x xs ih => simp [sortDesc, mem_insertDesc, ih]

/-- The sorted list is version-descending. -/
def SortedDesc (l : List PyCompatVersion) : Prop :=
  l.Pairwise (fun a b => strLe b.version a.version = true)

theorem selectVersion_cons (d : Date) (flags : List String)
    (p : PyCompatVersion) (rest : List PyCompatVersion) :
    selectVersion d flags (p :: rest) =
      if versionMatches d flags p = true then some p.version
      else selectVersion d flags rest := by
  by_cases hf : p.compat_flag ∈ flags
  · rw [if_pos (by simp [versionMatches, hf])]
    conv_lhs => rw [selectVersion]
    rw [if_pos hf]
  · conv_lhs => rw [selectVersion]
    rw [if_neg hf]
    cases hd : p.compat_date with
    | none =>
      rw [if_neg (by simp [versionMatches, hf, hd])]
    | some dd =>
      cases hdl : dateLe dd d with
      | true =>
        rw [if_pos (by simp [versionMatches, hd, hdl])]
        show (if dateLe dd d = true then some p.version
          else selectVersion d flags rest) = some p.version
        rw [if_pos hdl]
      | false =>
        rw [if_neg (by simp [versionMatches, hf, hd, hdl])]
        show (if dateLe dd d = true then some p.version
          else selectVersion d flags rest) = selectVersion d flags rest
        rw [if_neg (by simp [hdl])]

theorem selectVersion_eq_none_iff (d : Date) (flags : List String) :
    ∀ (l : List PyCompatVersion),
      selectVersion d flags l = none ↔
        ∀ p ∈ l, versionMatches d flags p = false := by
  intro l
  induction l with
  | nil => simp [selectVersion]
  | cons p rest ih =>
    rw [selectVersion_cons]
    cases hm : versionMatches d flags p with
    | true => simp [hm]
    | false => simp [hm, ih]

theorem selectVersion_eq_some (d : Date) (flags : List String) :
    ∀ (l : List PyCompatVersion) (ver : String),
      selectVersion d flags l = some ver →
      ∃ p, p ∈ l ∧ versionMatches d flags p = true ∧ p.version = ver := by
  intro l
  induction l with
  | nil =>
    intro ver h
    simp [selectVersion] at h
  | cons p rest ih =>
    intro ver h
    rw [selectVersion_cons] at h
    cases hm : versionMatches d flags p with
    | true =>
      rw [if_pos hm] at h
      exact ⟨p, List.mem_cons_self p rest, hm, by injection h⟩
    | false =>
      rw [if_neg (by simp [hm])] at h
      obtain ⟨q, hq, hqm, hqv⟩ := ih ver h
      exact ⟨q, List.mem_cons_of_mem p hq, hqm, hqv⟩

/-- In a version-descending list, when `v` matches and every strictly newer
entry fails to match, the scan returns `v`'s version string. -/
theorem selectVersion_first_max (d : Date) (flags : List String) :
    ∀ (l : List PyCompatVersion) (v : PyCompatVersion),
      SortedDesc l → v ∈ l → versionMatches d flags v = true →
      (∀ w ∈ l, strLt v.version w.version = true →
        versionMatches d flags w = false) →
      selectVersion d flags l = some v.version := by
  intro l
  induction l with
  | nil =>
    intro v _ hv
    cases hv
  | cons p rest ih =>
    intro v hs hv hm hnewer
    rw [selectVersion_cons]
    rw [SortedDesc, List.pairwise_cons] at hs
    obtain ⟨hp, hrest⟩ := hs
    cases hmp : versionMatches d flags p with
    | true =>
      rw [if_pos (Eq.refl true)]
      rcases List.mem_cons.mp hv with hveq | hvmem
      · rw [hveq]
      · have hle := hp v hvmem
        have hnp : ¬ strLt v.version p.version = true := by
          intro hlt
          have hcontra := hnewer p (List.mem_cons_self p rest) hlt
          rw [hcontra] at hmp
          cases hmp
        have h1 : strLt p.version v.version = false := by
          cases hx : strLt p.version v.version with
          | false => rfl
          | true =>
            unfold strLe at hle
            rw [hx] at hle
            cases hle
        have h2 : strLt v.version p.version = false := by
          cases hx : strLt v.version p.version with
          | false => rfl
          | true => exact absurd hx hnp
        rw [version_eq_of_strLt_false h1 h2]
    | false =>
      rw [if_neg Bool.false_ne_true]
      rcases List.mem_cons.mp hv with hveq | hvmem
      · rw [hveq] at hm
        rw [hm] at hmp
        cases hmp
      · exact ih v hrest hvmem hm
          (fun w hw hlt => hnewer w (List.mem_cons_of_mem p hw) hlt)

theorem sortedDesc_insertDesc {x : PyCompatVersion} :
    ∀ {l : List PyCompatVersion}, SortedDesc l → SortedDesc (insertDesc x l) := by
  intro l
  induction l with
  | nil =>
    intro _
    simp [insertDesc, SortedDesc]
  | cons y ys ih =>
    intro hs
    rw [SortedDesc, List.pairwise_cons] at hs
    obtain ⟨hy, hys⟩ := hs
    unfold insertDesc
    by_cases h : strLe y.version x.version = true
    · rw [if_pos h, SortedDesc, List.pairwise_cons]
      refine ⟨?_, List.pairwise_cons.mpr ⟨hy, hys⟩⟩
      intro b hb
      rcases List.mem_cons.mp hb with hb | hb
      · simpa [hb] using h
      · exact strLe_trans (hy b hb) h
    · rw [if_neg h, SortedDesc, List.pairwise_cons]
      constructor
      · intro b hb
        rcases mem_insertDesc.mp hb with hb | hb
        · subst hb
          exact strLe_of_not_strLe h
        · exact hy b hb
      · exact ih hys

theorem sortedDesc_sortDesc :
    ∀ (l : List PyCompatVersion), SortedDesc (sortDesc l) := by
  intro l
  induction l with
  | nil => simp [sortDesc, SortedDesc]
  | cons x xs ih => exact sortedDesc_insertDesc ih

theorem get_python_version_some_date (dateStr : String) (flags : List String)
    (table : List PyCompatVersion) :
    get_python_version
        (some { compatibility_date := some dateStr,
                compatibility_flags := flags }) table =
      match parseCompatDate dateStr with
      | none => Except.error ("Invalid compatibility_date format: " ++ dateStr)
      | some compatDate =>
        if "python_workers" ∈ flags then
          match selectVersion compatDate flags (sortDesc table) with
          | some ver => Except.ok ver
          | none =>
            Except.error "Could not determine Python version from wrangler config"
        else
          Except.error "`python_workers` compat flag not specified in wrangler config" :=
  rfl

theorem get_python_version_invalid_date (dateStr : String) (flags : List String)
    (table : List PyCompatVersion) (hparse : parseCompatDate dateStr = none) :
    get_python_version
        (some { compatibility_date := some dateStr,
                compatibility_flags := flags }) table =
      Except.error ("Invalid compatibility_date format: " ++ dateStr) := by
  rw [get_python_version_some_date, hparse]

theorem get_python_version_no_base_flag (dateStr : String) (flags : List String)
    (table : List PyCompatVersion) (d : Date)
    (hparse : parseCompatDate dateStr = some d)
    (hbase : "python_workers" ∉ flags) :
    get_python_version
        (some { compatibility_date := some dateStr,
                compatibility_flags := flags }) table =
      Except.error "`python_workers` compat flag not specified in wrangler config" := by
  rw [get_python_version_some_date, hparse]
  show (if "python_workers" ∈ flags then
      match selectVersion d flags (sortDesc table) with
      | some ver => Except.ok ver
      | none =>
        Except.error "Could not determine Python version from wrangler config"
    else
      Except.error "`python_workers` compat flag not specified in wrangler config") = _
  rw [if_neg hbase]

theorem get_python_version_selected (dateStr : String) (flags : List String)
    (table : List PyCompatVersion) (d : Date) (ver : String)
    (hparse : parseCompatDate dateStr = some d)
    (hbase : "python_workers" ∈ flags)
    (hsel : selectVersion d flags (sortDesc table) = some ver) :
    get_python_version
        (some { compatibility_date := some dateStr,
                compatibility_flags := flags }) table = Except.ok ver := by
  rw [get_python_version_some_date, hparse]
  show (if "python_workers" ∈ flags then
      match selectVersion d flags (sortDesc table) with
      | some ver => Except.ok ver
      | none =>
        Except.error "Could not determine Python version from wrangler config"
    else
      Except.error "`python_workers` compat flag not specified in wrangler config") = _
  rw [if_pos hbase, hsel]

theorem get_python_version_no_match (dateStr : String) (flags : List String)
    (table : List PyCompatVersion) (d : Date)
    (hparse : parseCompatDate dateStr = some d)
    (hbase : "python_workers" ∈ flags)
    (hsel : selectVersion d flags (sortDesc table) = none) :
    get_python_version
        (some { compatibility_date := some dateStr,
                compatibility_flags := flags }) table =
      Except.error "Could not determine Python version from wrangler config" := by
  rw [get_python_version_some_date, hparse]
  show (if "python_workers" ∈ flags then
      match selectVersion d flags (sortDesc table) with
      | some ver => Except.ok ver
      | none =>
        Except.error "Could not determine Python version from wrangler config"
    else
      Except.error "`python_workers` compat flag not specified in wrangler config") = _
  rw [if_pos hbase, hsel]

/-! ## The claims -/

/-- **C1.** For every invocation of the orchestrated install pipeline in
which both the native install and the cross-compiled install fail, the
diagnostic surfaced in output is exactly the native install's diagnostic
(followed by the fixed failure summary), and the cross-compiled install's
diagnostic appears nowhere in the output. -/
theorem claim_C1_native_error_precedence (requirements resolved : List String)
    (nativeErr crossErr : String) :
    (install_requirements requirements (some crossErr) resolved
          (some nativeErr)).logs =
        [LogEntry.diag nativeErr, LogEntry.venvFailSummary] ∧
      (crossErr ≠ nativeErr →
        LogEntry.diag crossErr ∉
          (install_requirements requirements (some crossErr) resolved
            (some nativeErr)).logs) := by
  refine ⟨rfl, ?_⟩
  intro hne
  show LogEntry.diag crossErr ∉ [LogEntry.diag nativeErr, LogEntry.venvFailSummary]
  simp [hne]

/-- Witness for C1 at the concrete diagnostics used by the repository's
tests. -/
theorem claim_C1_witness :
    "Pyodide install failed: no solution found" ≠
        "Native install failed: package not found" ∧
      (install_requirements ["nonexistent-package"]
          (some "Pyodide install failed: no solution found") []
          (some "Native install failed: package not found")).logs =
        [LogEntry.diag "Native install failed: package not found",
         LogEntry.venvFailSummary] ∧
      LogEntry.diag "Pyodide install failed: no solution found" ∉
        (install_requirements ["nonexistent-package"]
          (some "Pyodide install failed: no solution found") []
          (some "Native install failed: package not found")).logs :=
  ⟨by decide,
   (claim_C1_native_error_precedence ["nonexistent-package"] []
     "Native install failed: package not found"
     "Pyodide install failed: no solution found").1,
   (claim_C1_native_error_precedence ["nonexistent-package"] []
     "Native install failed: package not found"
     "Pyodide install failed: no solution found").2 (by decide)⟩

/-- The step order C2 claims (spec §2, §4.5, §8): a first native install of
the original requirements, then the cross-compiled install of the original
requirements, then — only on cross-compiled success with a non-empty
resolved list — a native reinstall of the resolved pinned list. -/
def claimedInstallOrder (requirements resolved : List String)
    (crossFailed : Bool) (run : SyncRun) : Prop :=
  run.calls =
    [Event.venvInstall requirements, Event.vendorInstall requirements] ++
      (if crossFailed then []
       else [Event.getVendorVersions] ++
         (if resolved.isEmpty then [] else [Event.venvInstall resolved]))

/-- **C2 counterexample.** On a successful run with a non-empty resolved
list, the pipeline does not perform the claimed native-first sequence: the
cross-compiled install comes first and the native environment receives a
single install (of the resolved pinned list), not an original-requirements
install followed by a reinstall. -/
theorem claim_C2_counterexample :
    ¬ claimedInstallOrder ["some-package"] ["some-package==1.0.0"] false
        (install_requirements ["some-package"] none ["some-package==1.0.0"]
          none) := by
  unfold claimedInstallOrder
  decide

/-- **C2 (amended).** The pipeline's fixed order is: cross-compiled install
of the original requirements first; on its success the resolved pinned
list is extracted; then exactly one native install — of the resolved
pinned list when the cross-compiled install succeeded and the list is
non-empty, and of the original requirements otherwise (so the
pin-reconciliation is skipped entirely when the resolved list is empty,
the single native install falling back to the original requirements). -/
theorem claim_C2_amended_pipeline_order (requirements resolved : List String)
    (vendorOutcome venvOutcome : Option String) :
    (install_requirements requirements vendorOutcome resolved
        venvOutcome).calls =
      Event.vendorInstall requirements ::
        (match vendorOutcome with
         | none => [Event.getVendorVersions,
             Event.venvInstall
               (if resolved.isEmpty then requirements else resolved)]
         | some _ => [Event.venvInstall requirements]) := by
  cases vendorOutcome <;> cases venvOutcome <;> rfl

/-- **C3.** The resolved-version extraction is exactly the order-preserving
filter keeping the input's lines that contain `==` and are neither blank
nor `#`-prefixed; in particular, lines with no version separator (such as
`some-package`) are dropped even when interspersed with valid pins. -/
theorem claim_C3_parse_pip_freeze_filter :
    (∀ output, _parse_pip_freeze output = specExtractResolved output) ∧
      _parse_pip_freeze
          "# Python 3.12.7\nshapely==2.0.7\n\n\nnumpy==1.26.4\n# Comment\n" =
        ["shapely==2.0.7", "numpy==1.26.4"] ∧
      _parse_pip_freeze "shapely==2.0.7\nsome-package\nnumpy==1.26.4\n" =
        ["shapely==2.0.7", "numpy==1.26.4"] :=
  ⟨parse_pip_freeze_eq_filter, by decide, by decide⟩

/-- **C4.** The resolved-version extraction never fails: whenever the
listing command reports a non-zero exit code, or the target directory
cannot be inspected, it returns the empty list regardless of the command's
stdout. -/
theorem claim_C4_extraction_never_fails (dirInspectable : Bool)
    (exitCode : Nat) (stdout : String)
    (h : exitCode ≠ 0 ∨ dirInspectable = false) :
    _get_vendor_package_versions dirInspectable exitCode stdout = [] := by
  unfold _get_vendor_package_versions
  rcases h with h | h
  · cases dirInspectable
    · rfl
    · simp [h]
  · subst h
    rfl

/-- Witness for C4: a non-zero exit with freeze-style stdout still yields
the empty list. -/
theorem claim_C4_witness :
    ((1 : Nat) ≠ 0 ∨ true = false) ∧
      _get_vendor_package_versions true 1 "shapely==2.0.7\nnumpy==1.26.4\n" =
        [] :=
  ⟨Or.inl (by decide),
   claim_C4_extraction_never_fails true 1 "shapely==2.0.7\nnumpy==1.26.4\n"
     (Or.inl (by decide))⟩

/-- The configured date lies strictly before the version's implicit-enable
date (vacuously satisfied for a version with no such date). -/
def dateBeforeImplicit (d : Date) (p : PyCompatVersion) : Bool :=
  match p.compat_date with
  | some dd => dateLt d dd
  | none => true

/-- **C5.** When the compatibility flags contain a supported version's
explicit enable flag and every strictly newer supported version matches
neither by flag nor by date, the resolver selects that version — even when
the configured compatibility date is strictly before the version's
implicit-enable date.  An explicit flag thus beats date-based enablement of
any older version, because versions are scanned newest-first with a
flag-or-date test per version. -/
theorem claim_C5_explicit_flag_beats_date (table : List PyCompatVersion)
    (flags : List String) (dateStr : String) (d : Date) (v : PyCompatVersion)
    (hparse : parseCompatDate dateStr = some d)
    (hbase : "python_workers" ∈ flags)
    (hv : v ∈ table)
    (hflag : v.compat_flag ∈ flags)
    (hbefore : dateBeforeImplicit d v = true)
    (hnewer : ∀ w ∈ table, strLt v.version w.version = true →
      versionMatches d flags w = false) :
    get_python_version
        (some { compatibility_date := some dateStr,
                compatibility_flags := flags }) table =
      Except.ok v.version := by
  refine get_python_version_selected dateStr flags table d v.version hparse
    hbase ?_
  refine selectVersion_first_max d flags (sortDesc table) v
    (sortedDesc_sortDesc table) (mem_sortDesc.mpr hv) ?_ ?_
  · simp [versionMatches, hflag]
  · intro w hw hlt
    exact hnewer w (mem_sortDesc.mp hw) hlt

/-- Witness for C5 on the modelled version table: the newer version's flag
is present, the configured date `2025-01-01` satisfies the older `3.12`
version's implicit date but lies strictly before `3.13`'s, and `3.13` is
selected anyway. -/
theorem claim_C5_witness :
    parseCompatDate "2025-01-01" =
        some { year := 2025, month := 1, day := 1 } ∧
      "python_workers" ∈ ["python_workers", "python_workers_313"] ∧
      ({ version := "3.13", compat_flag := "python_workers_313",
         compat_date := some { year := 2025, month := 9, day := 1 } } :
          PyCompatVersion) ∈ PYTHON_COMPAT_VERSIONS ∧
      "python_workers_313" ∈ ["python_workers", "python_workers_313"] ∧
      dateBeforeImplicit { year := 2025, month := 1, day := 1 }
        { version := "3.13", compat_flag := "python_workers_313",
          compat_date := some { year := 2025, month := 9, day := 1 } } = true ∧
      get_python_version
          (some { compatibility_date := some "2025-01-01",
                  compatibility_flags :=
                    ["python_workers", "python_workers_313"] })
          PYTHON_COMPAT_VERSIONS =
        Except.ok "3.13" :=
  ⟨by decide, by decide, by decide, by decide, by decide,
   claim_C5_explicit_flag_beats_date PYTHON_COMPAT_VERSIONS
     ["python_workers", "python_workers_313"] "2025-01-01"
     { year := 2025, month := 1, day := 1 }
     { version := "3.13", compat_flag := "python_workers_313",
       compat_date := some { year := 2025, month := 9, day := 1 } }
     (by decide) (by decide) (by decide) (by decide) (by decide)
     (by decide)⟩

/-- **C6 counterexample.** For the empty requirement list the
cross-compiled installer returns without touching the vendor completion
marker, contrary to the claim that the marker is still written or
refreshed. -/
theorem claim_C6_counterexample :
    ¬ VendorStep.touchVendorToken ∈
        (_install_requirements_to_vendor [] 0).steps := by
  decide

/-- **C6 (amended).** For the empty requirement list the cross-compiled
installer is a no-op success: it returns before any install step and
requests no abort — so nothing is installed and, in particular, the vendor
completion marker is not written or refreshed. -/
theorem claim_C6_amended_empty_noop (installExit : Nat) :
    _install_requirements_to_vendor [] installExit =
      { steps := [], exitCode := none } := rfl

/-- **C7.** For a configuration carrying a compatibility-date string, the
resolver fails exactly when no supported version can be determined: when
the date string is malformed, when the required `python_workers` base flag
is absent, or when no version in the table matches by flag or date;
otherwise it returns a supported version (one from the table). -/
theorem claim_C7_resolver_failure_conditions (table : List PyCompatVersion)
    (flags : List String) (dateStr : String) :
    ((∃ e, get_python_version
          (some { compatibility_date := some dateStr,
                  compatibility_flags := flags }) table = Except.error e) ↔
        (parseCompatDate dateStr = none ∨ "python_workers" ∉ flags ∨
          (∀ d, parseCompatDate dateStr = some d →
            ∀ v ∈ table, versionMatches d flags v = false))) ∧
      (∀ ver, get_python_version
          (some { compatibility_date := some dateStr,
                  compatibility_flags := flags }) table = Except.ok ver →
        ∃ v ∈ table, v.version = ver) := by
  cases hparse : parseCompatDate dateStr with
  | none =>
    rw [get_python_version_invalid_date dateStr flags table hparse]
    refine ⟨⟨fun _ => Or.inl rfl, fun _ => ⟨_, rfl⟩⟩, ?_⟩
    intro ver hok
    cases hok
  | some d =>
    by_cases hbase : "python_workers" ∈ flags
    · cases hsel : selectVersion d flags (sortDesc table) with
      | some ver =>
        rw [get_python_version_selected dateStr flags table d ver hparse hbase
          hsel]
        constructor
        · constructor
          · rintro ⟨e, he⟩
            cases he
          · intro hcond
            rcases hcond with hc | hc | hc
            · cases hc
            · exact absurd hbase hc
            · obtain ⟨p, hp, hpm, _⟩ :=
                selectVersion_eq_some d flags (sortDesc table) ver hsel
              have hfalse := hc d rfl p (mem_sortDesc.mp hp)
              rw [hfalse] at hpm
              cases hpm
        · intro ver2 hok
          obtain ⟨p, hp, _, hpv⟩ :=
            selectVersion_eq_some d flags (sortDesc table) ver hsel
          injection hok with hok2
          exact ⟨p, mem_sortDesc.mp hp, by rw [hpv, hok2]⟩
      | none =>
        rw [get_python_version_no_match dateStr flags table d hparse hbase hsel]
        constructor
        · constructor
          · intro _
            refine Or.inr (Or.inr ?_)
            intro d2 hp2 v hv
            injection hp2 with hd2
            subst hd2
            exact (selectVersion_eq_none_iff d flags (sortDesc table)).mp hsel v
              (mem_sortDesc.mpr hv)
          · intro _
            exact ⟨_, rfl⟩
        · intro ver hok
          cases hok
    · rw [get_python_version_no_base_flag dateStr flags table d hparse hbase]
      refine ⟨⟨fun _ => Or.inr (Or.inl hbase), fun _ => ⟨_, rfl⟩⟩, ?_⟩
      intro ver hok
      cases hok

/-- Witness for C7: a config missing the base flag fails, and a config the
resolver accepts yields a version present in the table. -/
theorem claim_C7_witness :
    (∃ e, get_python_version
        (some { compatibility_date := some "2025-01-01",
                compatibility_flags := ["python_workers_313"] })
        PYTHON_COMPAT_VERSIONS = Except.error e) ∧
      (∃ v ∈ PYTHON_COMPAT_VERSIONS, v.version = "3.12") :=
  ⟨((claim_C7_resolver_failure_conditions PYTHON_COMPAT_VERSIONS
      ["python_workers_313"] "2025-01-01").1).mpr
      (Or.inr (Or.inl (by decide))),
   (claim_C7_resolver_failure_conditions PYTHON_COMPAT_VERSIONS
      ["python_workers"] "2025-01-01").2 "3.12" rfl⟩

/-- **C8.** Given the manifest file exists, `is_sync_needed` returns `true`
if and only if the manifest's modification time is strictly newer than the
vendor-directory marker's timestamp, or strictly newer than the
native-environment marker's timestamp, or either marker file is absent. -/
theorem claim_C8_is_sync_needed_iff (t : Int)
    (vendorToken venvWorkersToken : Option Int) :
    is_sync_needed (some t) vendorToken venvWorkersToken = true ↔
      (vendorToken = none ∨ venvWorkersToken = none ∨
        (∃ m, vendorToken = some m ∧ m < t) ∨
        (∃ m, venvWorkersToken = some m ∧ m < t)) := by
  cases vendorToken <;> cases venvWorkersToken <;>
    simp [is_sync_needed, _is_out_of_date]

/-- **C9.** The native-environment installer passes to the underlying
package installer exactly the given requirement list with the extra package
`pyodide-py` appended at the end (also in the temp requirements file it
writes), while the caller's requirement-list object is left unmodified —
the installer mutates only a copy. -/
theorem claim_C9_venv_installer_appends (requirements : List String)
    (installExit : Nat) :
    (_install_requirements_to_venv requirements installExit).installerReqs =
        requirements ++ ["pyodide-py"] ∧
      (_install_requirements_to_venv requirements
          installExit).tempFileContents =
        String.intercalate "\n" (requirements ++ ["pyodide-py"]) ∧
      (_install_requirements_to_venv requirements installExit).callerReqsAfter =
        requirements := by
  unfold _install_requirements_to_venv
  by_cases h : installExit ≠ 0 <;> simp [h]

/-- **C10.** Whenever a `requirements.txt` file exists at the project root,
the pre-flight check logs migration guidance and aborts the process with
exit code 1, regardless of the file's contents — so the install step is
never reached while a legacy `requirements.txt` is present. -/
theorem claim_C10_requirements_txt_aborts (contents : List String) :
    (check_requirements_txt (some contents)).exitCode = some 1 ∧
      (check_requirements_txt (some contents)).warnings ≠ [] ∧
      (sync_preflight (some contents)).2 = false := by
  refine ⟨rfl, ?_, rfl⟩
  simp [check_requirements_txt]

end Pywrangler
